import Mathlib

/-!
Verification development for the Suprema Aposta report scraper
(`scraper.py`): a shallow embedding of its orchestration core — the
retry wrapper, the download watcher, the per-report download
orchestrator, the CSV→parquet→BigQuery ingestion loop, and the run
controller with its cleanup block — together with theorems settling the
specification's claims about them.

Conventions of the embedding:
* Python exceptions are modelled with `Except`: a call that raises
  yields `Except.error`, a call that returns yields `Except.ok`.
* `time.sleep` and function invocations are recorded as events in a
  trace, so that statements about "how many attempts" and "waits
  between attempts" are about an explicit event list.
* Directory contents are lists of file names (representing the listing
  returned by `os.listdir`, which contains no duplicates);
  `os.path.getsize` at the two sampling instants and
  `os.path.getctime` are explicit functions in the state.
* Browser/DOM interactions are abstracted into boolean fields of an
  environment record describing how each external call would behave,
  exactly at the granularity the control flow of the source
  distinguishes.
-/

set_option autoImplicit false

deriving instance DecidableEq for Except

namespace Scraper

/-- An observable event of the retry loop: invoking the wrapped
operation for the given (0-based) attempt index, or sleeping for the
given delay (`time.sleep(delay)`). -/
inductive Event where
  | invoke (attempt : Nat)
  | wait (delay : Nat)
  deriving DecidableEq, Repr

/-- Whether an event is an invocation of the wrapped operation. -/
def Event.isInvoke : Event → Bool
  | .invoke _ => true
  | .wait _ => false

/-- The body of `retry_on_error`'s `for attempt in range(max_attempts)`
loop, entered at iteration `attempt` with `remaining` loop iterations
left (the current one included, so `remaining = max_attempts − attempt`)
and `last` holding `last_exception`.  The wrapped operation is
`op : Nat → Except ε α`, giving the outcome of its call on each
attempt.  Mirrors `scraper.py` lines 72–83: try the call and return its
value on success; on an exception remember it, sleep `delay` only if
`attempt + 1 < max_attempts` — i.e. only if a further iteration is
left — and continue; when the loop ends, re-raise `last_exception` (an
`Except.error last`, where `last = none` models the degenerate
`max_attempts = 0` re-raise of `None`).  Returns the event trace paired
with the final outcome. -/
def retryGo {ε α : Type} (op : Nat → Except ε α) (delay : Nat) :
    Nat → Nat → Option ε → List Event × Except (Option ε) α
  | _, 0, last => ([], Except.error last)
  | attempt, remaining + 1, _last =>
    match op attempt with
    | Except.ok v => ([Event.invoke attempt], Except.ok v)
    | Except.error e =>
      match remaining with
      | 0 =>
        (Event.invoke attempt :: (retryGo op delay (attempt + 1) 0 (some e)).1,
         (retryGo op delay (attempt + 1) 0 (some e)).2)
      | r + 1 =>
        (Event.invoke attempt :: Event.wait delay ::
           (retryGo op delay (attempt + 1) (r + 1) (some e)).1,
         (retryGo op delay (attempt + 1) (r + 1) (some e)).2)

/-- The decorator `retry_on_error(max_attempts, delay)` applied to an operation:
run the retry loop from attempt 0, with all `max_attempts` iterations
ahead and no last exception (`scraper.py` lines 69–85). -/
def retry_on_error {ε α : Type} (op : Nat → Except ε α) (maxAttempts delay : Nat) :
    List Event × Except (Option ε) α :=
  retryGo op delay 0 maxAttempts none

/-- The trace of `k` consecutive failing attempts starting at attempt
index `s`, each followed by a `delay` sleep. -/
def attemptTraceFrom (delay : Nat) : Nat → Nat → List Event
  | _, 0 => []
  | s, k + 1 => Event.invoke s :: Event.wait delay :: attemptTraceFrom delay (s + 1) k

/-- Python's `str.endswith(suffix)` on the character sequences of the
strings. -/
def hasSuffix (s suffix : String) : Bool :=
  suffix.data.isSuffixOf s.data

/-- The test `f.endswith('.csv')` — the extension filter applied to directory
listings throughout `scraper.py` (lines 139, 164, 190, 287). -/
def isCsv (f : String) : Bool :=
  hasSuffix f ".csv"

/-- The test `f.endswith(('.tmp', '.crdownload'))` — the in-progress-download
marker test of `scraper.py` line 146. -/
def isDownloading (f : String) : Bool :=
  hasSuffix f ".tmp" || hasSuffix f ".crdownload"

/-- The directory state observed during one call of
`new_file_downloaded`: the listing of the download directory (both
`os.listdir` calls of lines 139 and 146 observe it), the creation-time
function `os.path.getctime`, and the sizes `os.path.getsize` returns at
the first sample (line 154) and at the second sample after the
one-second pause (line 156); `none` models the call raising
`FileNotFoundError`/`OSError`, which the handler of line 159 turns into
`False`. -/
structure DirState where
  files : List String
  ctime : String → Nat
  sizeA : String → Option Nat
  sizeB : String → Option Nat

/-- The difference `current_files - existing_files` restricted to the `.csv`
extension: the set of names in the current listing ending in `.csv`
minus the before-snapshot (`scraper.py` lines 139–140). -/
def newFiles (files existing : List String) : List String :=
  (files.filter isCsv).filter (fun f => decide (f ∉ existing))

/-- The files of the listing still carrying an in-progress extension
(`scraper.py` line 146). -/
def downloadingFiles (files : List String) : List String :=
  files.filter isDownloading

/-- Python's `max(files, key=os.path.getctime)`: the first element
attaining the maximal creation time, scanning left to right and
replacing the current best only on a strictly greater key. -/
def maxByCtime (ctime : String → Nat) : List String → Option String
  | [] => none
  | f :: fs => some (fs.foldl (fun best g => if ctime g > ctime best then g else best) f)

/-- The watcher `new_file_downloaded(driver, existing_files)` (`scraper.py` lines
137–160): report `False` when no new `.csv` file appeared; report
`False` while any `.tmp`/`.crdownload` file is present; otherwise take
the newest new file by creation time, sample its size twice with a
pause in between, and report completion exactly when the two samples
are equal and positive.  A size sample of `none` (an OS error) lands in
the `except` handler and reports `False`. -/
def new_file_downloaded (existing : List String) (st : DirState) : Bool :=
  if (newFiles st.files existing).isEmpty then false
  else if !(downloadingFiles st.files).isEmpty then false
  else
    match maxByCtime st.ctime (newFiles st.files existing) with
    | none => false
    | some newest =>
      match st.sizeA newest, st.sizeB newest with
      | some s1, some s2 => decide (s1 = s2) && decide (0 < s1)
      | _, _ => false

/-- The fixed report-type job list (`REPORT_TYPES`, `scraper.py`
lines 31–36). -/
def REPORT_TYPES : List String :=
  ["Relatório de Mídia", "Relatório de Registros",
   "Relatório de Ganhos", "Relatório de atividades"]

/-- The dict `REPORT_FILE_MAPPING` (`scraper.py` lines 38–43): canonical
download file name per report type. -/
def REPORT_FILE_MAPPING : String → Option String := fun r =>
  if r = "Relatório de Mídia" then some "midia.csv"
  else if r = "Relatório de Registros" then some "registros.csv"
  else if r = "Relatório de Ganhos" then some "ganhos.csv"
  else if r = "Relatório de atividades" then some "atividades.csv"
  else none

/-- The dict `TABLE_MAPPING` (`scraper.py` lines 45–50): destination table per
canonical file name; `none` models absence of the key from the dict. -/
def TABLE_MAPPING : String → Option String := fun f =>
  if f = "midia.csv" then some "midia"
  else if f = "registros.csv" then some "registros"
  else if f = "ganhos.csv" then some "ganhos"
  else if f = "atividades.csv" then some "atividades"
  else none

/-- Environment abstracting the external calls made during one body
execution of `download_single_report` (`scraper.py` lines 183–243), at
the granularity its control flow distinguishes:
* `reportStepRaises`: one of the steps before the export check — the
  report-link wait/click, the date-range select, the generate-button
  wait/click (lines 190–207) — raises, escalating through the outer
  `except` (lines 238–243) as a re-raised exception;
* `exportAvailable`: `find_elements` for the export button (line 209)
  returns a non-empty list;
* `exportStepRaises`: the subsequent clickable-wait/click of the export
  button (lines 214–218) raises, also re-raised by the outer `except`;
* `downloadOk`: the two-minute `download_wait.until(new_file_downloaded…)`
  (lines 221–223) succeeds; its timeout is caught and turned into a
  `False` return (lines 225–227);
* `renameOk`: `rename_downloaded_file` (line 232) returns a name rather
  than `None`; `None` yields a `False` return (lines 232–234);
* `navBackOk`: what `navigate_back_to_reports` (lines 245–270, all
  exceptions caught, boolean result) returns in this state. -/
structure PortalEnv where
  reportStepRaises : Bool
  exportAvailable : Bool
  exportStepRaises : Bool
  downloadOk : Bool
  renameOk : Bool
  navBackOk : Bool
  deriving DecidableEq, Repr

/-- The helper `navigate_back_to_reports` (`scraper.py` lines 245–270): catches
every exception and returns a boolean, abstracted by `navBackOk`. -/
def navigate_back_to_reports (env : PortalEnv) : Bool :=
  env.navBackOk

/-- One body execution of `download_single_report` (`scraper.py` lines
183–243), before the `@retry_on_error` wrapping: `Except.error ()`
models a re-raised exception, `Except.ok b` a returned boolean.  When
no export button exists the function logs "Nenhum dado disponível" and
returns `navigate_back_to_reports(...)` (lines 210–212). -/
def download_single_report (env : PortalEnv) : Except Unit Bool :=
  if env.reportStepRaises then Except.error ()
  else if !env.exportAvailable then Except.ok (navigate_back_to_reports env)
  else if env.exportStepRaises then Except.error ()
  else if !env.downloadOk then Except.ok false
  else if !env.renameOk then Except.ok false
  else Except.ok (navigate_back_to_reports env)

/-- The `for report_type in REPORT_TYPES` loop of `download_reports`
(`scraper.py` lines 278–282), with `jobResult r` the outcome of the
(retried) `download_single_report` call for report type `r`:
`Except.ok`/`Except.error` as for `download_single_report`.  Returns
the list of jobs actually attempted paired with the overall outcome:
`ok false` as soon as a job returns `False`, a re-raised exception as
soon as a job raises, `ok true` when every job returned `True`. -/
def download_reports_trace (jobResult : String → Except Unit Bool) :
    List String → List String × Except Unit Bool
  | [] => ([], Except.ok true)
  | r :: rs =>
    match jobResult r with
    | Except.ok true =>
      let t := download_reports_trace jobResult rs
      (r :: t.1, t.2)
    | Except.ok false => ([r], Except.ok false)
    | Except.error e => ([r], Except.error e)

/-- Result of one body execution of `process_and_upload_to_bigquery`
(`scraper.py` lines 285–332): whether it returned `True` (`ok = true`)
or let an exception escape the loop and re-raised it (`ok = false`);
the CSV files successfully loaded into BigQuery, in iteration order;
the CSV files deleted (line 326); the parquet artifacts written
(line 309) and the parquet artifacts unlinked (line 327), named by
their table name. -/
structure IngestOutcome where
  ok : Bool
  loads : List String
  removedCsv : List String
  parquetWritten : List String
  parquetRemoved : List String
  deriving DecidableEq, Repr

/-- The `for csv_file in found_files` loop of
`process_and_upload_to_bigquery` (`scraper.py` lines 293–327), with
`loadOk f` telling whether the BigQuery load job for file `f`
(lines 317–323) completes rather than raising.  A file absent from
`TABLE_MAPPING` is logged as a warning and skipped (`continue`,
lines 294–296).  A mapped file is read, written to parquet, and loaded;
on success the CSV is removed and the parquet unlinked (lines 326–327);
a load exception aborts the loop and is re-raised by the `except`
handler (lines 330–332), leaving that file and every later file
untouched. -/
def ingestLoop (loadOk : String → Bool) : List String → IngestOutcome
  | [] => ⟨true, [], [], [], []⟩
  | f :: fs =>
    match TABLE_MAPPING f with
    | none => ingestLoop loadOk fs
    | some t =>
      if loadOk f then
        let r := ingestLoop loadOk fs
        ⟨r.ok, f :: r.loads, f :: r.removedCsv, t :: r.parquetWritten, t :: r.parquetRemoved⟩
      else
        ⟨false, [], [], [t], []⟩

/-- One body execution of `process_and_upload_to_bigquery`
(`scraper.py` lines 285–332): gather the `.csv` files of the listing
(line 287); when there are none, log and return `True` (lines
289–291); otherwise run the per-file loop.  The Python `found_files`
set iterates in unspecified order; the embedding iterates in listing
order (directory listings contain no duplicates). -/
def process_and_upload_to_bigquery (loadOk : String → Bool) (files : List String) :
    IngestOutcome :=
  if (files.filter isCsv).isEmpty then ⟨true, [], [], [], []⟩
  else ingestLoop loadOk (files.filter isCsv)

/-- State left behind by `cleanup` (`scraper.py` lines 334–343):
whether the browser session ended (vacuously `true` when no driver was
ever created), the files remaining in the temporary directory, and
whether the directory itself was removed. -/
structure CleanupState where
  driverClosed : Bool
  tempFiles : List String
  tempDirRemoved : Bool
  deriving DecidableEq, Repr

/-- The function `cleanup(driver, temp_dir)` (`scraper.py` lines 334–343):
`driver.quit()`, then unlink every file, then remove the directory —
all inside one `try` whose `except` only logs.  `hasDriver` tells
whether a driver was created; `quitRaises` whether `driver.quit()`
raises.  When it does, the exception skips the unlink loop and the
`rmdir`, leaving every file and the directory in place. -/
def cleanup (hasDriver quitRaises : Bool) (tempFiles : List String) : CleanupState :=
  if hasDriver && quitRaises then
    ⟨false, tempFiles, false⟩
  else
    ⟨true, [], true⟩

/-- Environment of one `main()` run (`scraper.py` lines 345–373):
whether the retried `setup_browser` / `setup_bigquery` / `login` calls
return (vs. re-raise after exhausting their retries), the outcome of
`download_reports` and of the retried
`process_and_upload_to_bigquery`, and whether `driver.quit()` raises
during cleanup. -/
structure RunEnv where
  browserOk : Bool
  bigqueryOk : Bool
  loginOk : Bool
  reportsResult : Except Unit Bool
  ingestResult : Except Unit Bool
  quitRaises : Bool
  deriving DecidableEq, Repr

/-- Outcome of `main()`: whether it re-raised an exception, and the
cleanup state it left behind. -/
structure MainOutcome where
  raised : Bool
  final : CleanupState
  deriving DecidableEq, Repr

/-- The controller `main()` (`scraper.py` lines 345–373): each stage either advances,
returns early on a `False` result, or raises — and every path leaves
through the `finally` block, which calls `cleanup(driver, TEMP_DIR)`
with `driver` still `None` exactly when `setup_browser` did not
return. -/
def mainRun (env : RunEnv) (tempFiles : List String) : MainOutcome :=
  if !env.browserOk then
    ⟨true, cleanup false env.quitRaises tempFiles⟩
  else if !env.bigqueryOk then
    ⟨true, cleanup true env.quitRaises tempFiles⟩
  else if !env.loginOk then
    ⟨true, cleanup true env.quitRaises tempFiles⟩
  else
    match env.reportsResult with
    | Except.error _ => ⟨true, cleanup true env.quitRaises tempFiles⟩
    | Except.ok false => ⟨false, cleanup true env.quitRaises tempFiles⟩
    | Except.ok true =>
      match env.ingestResult with
      | Except.error _ => ⟨true, cleanup true env.quitRaises tempFiles⟩
      | Except.ok _ => ⟨false, cleanup true env.quitRaises tempFiles⟩

theorem retryGo_ok {ε α : Type} (op : Nat → Except ε α) (d attempt r : Nat)
    (last : Option ε) (v : α) (hop : op attempt = Except.ok v) :
    retryGo op d attempt (r + 1) last = ([Event.invoke attempt], Except.ok v) := by
  simp only [retryGo, hop]

theorem retryGo_err_last {ε α : Type} (op : Nat → Except ε α) (d attempt : Nat)
    (last : Option ε) (e : ε) (hop : op attempt = Except.error e) :
    retryGo op d attempt 1 last = ([Event.invoke attempt], Except.error (some e)) := by
  simp only [retryGo, hop]

theorem retryGo_err_more {ε α : Type} (op : Nat → Except ε α) (d attempt r : Nat)
    (last : Option ε) (e : ε) (hop : op attempt = Except.error e) :
    retryGo op d attempt (r + 1 + 1) last =
      (Event.invoke attempt :: Event.wait d ::
         (retryGo op d (attempt + 1) (r + 1) (some e)).1,
       (retryGo op d (attempt + 1) (r + 1) (some e)).2) := by
  conv_lhs => rw [retryGo]
  rw [hop]

theorem retryGo_all_fail {ε α : Type} (op : Nat → Except ε α) (f : Nat → ε)
    (hf : ∀ i, op i = Except.error (f i)) (d : Nat) :
    ∀ k attempt last,
      retryGo op d attempt (k + 1) last =
        (attemptTraceFrom d attempt k ++ [Event.invoke (attempt + k)],
         Except.error (some (f (attempt + k)))) := by
  intro k
  induction k with
  | zero =>
    intro attempt last
    rw [retryGo_err_last op d attempt last (f attempt) (hf attempt)]
    simp [attemptTraceFrom]
  | succ k ih =>
    intro attempt last
    rw [retryGo_err_more op d attempt k last (f attempt) (hf attempt)]
    rw [ih (attempt + 1) (some (f attempt))]
    have hidx : attempt + 1 + k = attempt + (k + 1) := by omega
    rw [hidx]
    simp [attemptTraceFrom]

theorem retryGo_returns_at {ε α : Type} (op : Nat → Except ε α) (d : Nat) (v : α) :
    ∀ k remaining attempt last, k < remaining →
      (∀ j, j < k → ∃ e, op (attempt + j) = Except.error e) →
      op (attempt + k) = Except.ok v →
      retryGo op d attempt remaining last =
        (attemptTraceFrom d attempt k ++ [Event.invoke (attempt + k)],
         Except.ok v) := by
  intro k
  induction k with
  | zero =>
    intro remaining attempt last hlt _ hok
    obtain ⟨r, rfl⟩ : ∃ r, remaining = r + 1 := ⟨remaining - 1, by omega⟩
    rw [retryGo_ok op d attempt r last v (by simpa using hok)]
    simp [attemptTraceFrom]
  | succ k ih =>
    intro remaining attempt last hlt hfail hok
    obtain ⟨e, he⟩ := hfail 0 (by omega)
    have he0 : op attempt = Except.error e := by simpa using he
    obtain ⟨r, rfl⟩ : ∃ r, remaining = r + 1 + 1 := ⟨remaining - 2, by omega⟩
    rw [retryGo_err_more op d attempt r last e he0]
    have hok' : op (attempt + 1 + k) = Except.ok v := by
      have hidx : attempt + 1 + k = attempt + (k + 1) := by omega
      rw [hidx]; exact hok
    rw [ih (r + 1) (attempt + 1) (some e) (by omega)
      (fun j hj => by
        obtain ⟨e', he'⟩ := hfail (j + 1) (by omega)
        refine ⟨e', ?_⟩
        have hidx : attempt + 1 + j = attempt + (j + 1) := by omega
        rw [hidx]; exact he')
      hok']
    have hidx : attempt + 1 + k = attempt + (k + 1) := by omega
    rw [hidx]
    simp [attemptTraceFrom]

theorem attemptTraceFrom_count_invoke (d : Nat) :
    ∀ k s, ((attemptTraceFrom d s k).filter Event.isInvoke).length = k := by
  intro k
  induction k with
  | zero => intro s; simp [attemptTraceFrom]
  | succ k ih => intro s; simp [attemptTraceFrom, Event.isInvoke, List.filter, ih]

theorem new_file_downloaded_true_iff (existing : List String) (st : DirState) :
    new_file_downloaded existing st = true ↔
      newFiles st.files existing ≠ [] ∧ downloadingFiles st.files = [] ∧
      ∃ f s, maxByCtime st.ctime (newFiles st.files existing) = some f ∧
        st.sizeA f = some s ∧ st.sizeB f = some s ∧ 0 < s := by
  unfold new_file_downloaded
  by_cases h1 : newFiles st.files existing = []
  · rw [h1]
    simp
  · have h1e : (newFiles st.files existing).isEmpty = false := by
      cases hc : newFiles st.files existing with
      | nil => exact absurd hc h1
      | cons a as => rfl
    by_cases h2 : downloadingFiles st.files = []
    · have h2e : (downloadingFiles st.files).isEmpty = true := by rw [h2]; rfl
      simp only [h1e, h2e, Bool.not_true, Bool.false_eq_true, if_false, ne_eq, h1,
        not_false_iff, true_and, h2]
      cases hm : maxByCtime st.ctime (newFiles st.files existing) with
      | none => simp
      | some f0 =>
        simp only [Option.some.injEq, exists_and_left, exists_eq_left']
        generalize st.sizeA f0 = oa
        generalize st.sizeB f0 = ob
        cases oa with
        | none => simp
        | some s1 =>
          cases ob with
          | none => simp
          | some s2 =>
            simp
            try omega
    · have h2e : (downloadingFiles st.files).isEmpty = false := by
        cases hc : downloadingFiles st.files with
        | nil => exact absurd hc h2
        | cons a as => rfl
      simp [h1e, h2e, h2]

theorem ingestLoop_removed_eq_loads (loadOk : String → Bool) :
    ∀ fs, (ingestLoop loadOk fs).removedCsv = (ingestLoop loadOk fs).loads ∧
      (ingestLoop loadOk fs).parquetRemoved =
        ((ingestLoop loadOk fs).loads).filterMap TABLE_MAPPING ∧
      ∀ f, f ∈ (ingestLoop loadOk fs).loads → loadOk f = true := by
  intro fs
  induction fs with
  | nil => simp [ingestLoop]
  | cons f fs ih =>
    cases hm : TABLE_MAPPING f with
    | none => simpa [ingestLoop, hm] using ih
    | some t =>
      cases hl : loadOk f with
      | false => simp [ingestLoop, hm, hl]
      | true =>
        refine ⟨?_, ?_, ?_⟩
        · simp [ingestLoop, hm, hl, ih.1]
        · simp [ingestLoop, hm, hl, List.filterMap_cons, ih.2.1]
        · intro g hg
          simp only [ingestLoop, hm, hl, if_true, List.mem_cons] at hg
          rcases hg with rfl | hg
          · exact hl
          · exact ih.2.2 g hg

theorem ingestLoop_all_ok (loadOk : String → Bool) (h : ∀ f, loadOk f = true) :
    ∀ fs, (ingestLoop loadOk fs).ok = true ∧
      (ingestLoop loadOk fs).loads = fs.filter (fun f => (TABLE_MAPPING f).isSome) := by
  intro fs
  induction fs with
  | nil => simp [ingestLoop]
  | cons f fs ih =>
    cases hm : TABLE_MAPPING f with
    | none => simp [ingestLoop, hm, List.filter_cons, ih.1, ih.2]
    | some t => simp [ingestLoop, hm, h f, List.filter_cons, ih.1, ih.2]

/-- Claim C2: for every `max_attempts = N ≥ 1` and wrapped operation that
fails on every invocation, `retry_on_error` invokes the operation
exactly `N` times, sleeps exactly `delay` between each consecutive pair
of attempts and never after the last, and finally re-raises the last
failure. -/
theorem retry_exhausts_all_attempts {ε α : Type} (op : Nat → Except ε α) (f : Nat → ε)
    (N delay : Nat) (hN : 1 ≤ N) (hf : ∀ i, op i = Except.error (f i)) :
    retry_on_error op N delay =
      (attemptTraceFrom delay 0 (N - 1) ++ [Event.invoke (N - 1)],
       Except.error (some (f (N - 1)))) ∧
    (((retry_on_error op N delay).1).filter Event.isInvoke).length = N := by
  obtain ⟨k, rfl⟩ : ∃ k, N = k + 1 := ⟨N - 1, by omega⟩
  have h := retryGo_all_fail op f hf delay k 0 none
  constructor
  · rw [retry_on_error, h]
    simp
  · rw [retry_on_error, h]
    simp [attemptTraceFrom_count_invoke, Event.isInvoke]

theorem retry_exhausts_all_attempts_witness :
    retry_on_error (fun i => (Except.error i : Except Nat Unit)) 3 5 =
      ([Event.invoke 0, Event.wait 5, Event.invoke 1, Event.wait 5, Event.invoke 2],
       Except.error (some 2)) := by
  have h := (retry_exhausts_all_attempts (fun i => (Except.error i : Except Nat Unit))
    (fun i => i) 3 5 (by omega) (fun i => rfl)).1
  simpa [attemptTraceFrom] using h

/-- Claim C10: `retry_on_error` retries only on exceptions — the first
invocation that returns a value (including the boolean failure signal
`False`) has that value passed through with no further attempts and no
sleep after it; in particular a `False` return of
`download_single_report` (here: the download-timeout path) is never
retried by its `@retry_on_error(max_attempts=5, delay=15)` wrapper. -/
theorem retry_returns_pass_through :
    (∀ (ε α : Type) (op : Nat → Except ε α) (N d k : Nat) (v : α),
       k < N → (∀ j, j < k → ∃ e, op j = Except.error e) → op k = Except.ok v →
       retry_on_error op N d =
         (attemptTraceFrom d 0 k ++ [Event.invoke k], Except.ok v)) ∧
    (∀ env : PortalEnv, env.reportStepRaises = false → env.exportAvailable = true →
       env.exportStepRaises = false → env.downloadOk = false →
       retry_on_error (fun _ => download_single_report env) 5 15 =
         ([Event.invoke 0], Except.ok false)) := by
  constructor
  · intro ε α op N d k v hk hfail hok
    have h := retryGo_returns_at op d v k N 0 none hk
      (fun j hj => by simpa using hfail j hj) (by simpa using hok)
    simpa [retry_on_error] using h
  · intro env h1 h2 h3 h4
    have hres : download_single_report env = Except.ok false := by
      simp [download_single_report, h1, h2, h3, h4]
    have h := retryGo_returns_at (fun _ => download_single_report env) 15 false 0 5 0 none
      (by omega) (fun j hj => absurd hj (by omega)) (by simpa using hres)
    simpa [retry_on_error, attemptTraceFrom] using h

theorem retry_returns_pass_through_witness :
    retry_on_error
        (fun i => if i = 0 then (Except.error 7 : Except Nat Bool) else Except.ok true) 5 15 =
      ([Event.invoke 0, Event.wait 15, Event.invoke 1], Except.ok true) := by
  have h := retry_returns_pass_through.1 Nat Bool
    (fun i => if i = 0 then Except.error 7 else Except.ok true) 5 15 1 true (by omega)
    (fun j hj => ⟨7, by
      have hj0 : j = 0 := by omega
      subst hj0
      rfl⟩) rfl
  simpa [attemptTraceFrom] using h

/-- Claim C4: the Watcher never signals completion while any file with
an in-progress extension (`.tmp` or `.crdownload`) is in the directory,
regardless of the candidate file's size stability. -/
theorem watcher_blocked_by_inprogress (existing : List String) (st : DirState)
    (f : String) (hf : f ∈ st.files) (hext : isDownloading f = true) :
    new_file_downloaded existing st = false := by
  cases hval : new_file_downloaded existing st with
  | false => rfl
  | true =>
    obtain ⟨-, h2, -⟩ := (new_file_downloaded_true_iff existing st).mp hval
    have hmem : f ∈ downloadingFiles st.files := List.mem_filter.mpr ⟨hf, hext⟩
    rw [h2] at hmem
    cases hmem

theorem watcher_blocked_by_inprogress_witness :
    new_file_downloaded []
      ⟨["data.csv", "data.crdownload"], fun _ => 0, fun _ => some 5, fun _ => some 5⟩ =
      false :=
  watcher_blocked_by_inprogress []
    ⟨["data.csv", "data.crdownload"], fun _ => 0, fun _ => some 5, fun _ => some 5⟩
    "data.crdownload" (by decide) (by decide)

/-- Claim C5: the Watcher signals completion only when the two size
samples of the chosen candidate (the newest new file) are equal and
strictly positive; if they differ or the size is zero it reports
not-yet. -/
theorem watcher_completion_requires_stable_size (existing : List String) (st : DirState) :
    (new_file_downloaded existing st = true →
       ∃ f s, maxByCtime st.ctime (newFiles st.files existing) = some f ∧
         st.sizeA f = some s ∧ st.sizeB f = some s ∧ 0 < s) ∧
    (∀ f, maxByCtime st.ctime (newFiles st.files existing) = some f →
       (st.sizeA f ≠ st.sizeB f ∨ st.sizeA f = some 0) →
       new_file_downloaded existing st = false) := by
  constructor
  · intro h
    exact ((new_file_downloaded_true_iff existing st).mp h).2.2
  · intro f hm hbad
    cases hval : new_file_downloaded existing st with
    | false => rfl
    | true =>
      obtain ⟨-, -, f', s, hm', hA, hB, hs⟩ :=
        (new_file_downloaded_true_iff existing st).mp hval
      rw [hm] at hm'
      have hff : f = f' := by injection hm'
      subst hff
      rcases hbad with hne | h0
      · exact (hne (by rw [hA, hB])).elim
      · rw [hA] at h0
        injection h0 with h0'
        exact (by omega : False).elim

theorem watcher_completion_requires_stable_size_witness :
    (∃ f s, maxByCtime (fun _ => 0) (newFiles ["novo.csv"] []) = some f ∧
       (some 5 : Option Nat) = some s ∧ (some 5 : Option Nat) = some s ∧ 0 < s) ∧
    new_file_downloaded [] ⟨["novo.csv"], fun _ => 0, fun _ => some 5, fun _ => some 6⟩ =
      false :=
  ⟨(watcher_completion_requires_stable_size []
      ⟨["novo.csv"], fun _ => 0, fun _ => some 5, fun _ => some 5⟩).1 (by decide),
   (watcher_completion_requires_stable_size []
      ⟨["novo.csv"], fun _ => 0, fun _ => some 5, fun _ => some 6⟩).2 "novo.csv"
      (by decide) (Or.inl (by decide))⟩

/-- Claim C6: the Watcher's new-files computation is exactly the set
difference of the current `.csv` names minus the before-snapshot names,
and is unaffected by a file present in both snapshots. -/
theorem watcher_new_files_set_difference (files existing : List String) :
    (∀ f, f ∈ newFiles files existing ↔ isCsv f = true ∧ f ∈ files ∧ f ∉ existing) ∧
    (∀ x, x ∈ existing → ∀ f,
       f ∈ newFiles (files.filter (fun g => decide (g ≠ x)))
             (existing.filter (fun g => decide (g ≠ x))) ↔
       f ∈ newFiles files existing) := by
  constructor
  · intro f
    simp [newFiles, List.mem_filter]
    tauto
  · intro x hx f
    by_cases hfx : f = x
    · subst hfx
      simp [newFiles, List.mem_filter, hx]
    · simp [newFiles, List.mem_filter, hfx]

theorem watcher_new_files_set_difference_witness :
    ("a.csv" ∈ newFiles ((["a.csv", "c.csv"]).filter (fun g => decide (g ≠ "c.csv")))
        ((["c.csv"]).filter (fun g => decide (g ≠ "c.csv"))) ↔
     "a.csv" ∈ newFiles ["a.csv", "c.csv"] ["c.csv"]) :=
  (watcher_new_files_set_difference ["a.csv", "c.csv"] ["c.csv"]).2 "c.csv" (by decide) "a.csv"

/-- Claim C7: in the Ingestion Pipeline the source CSV (and its parquet
artifact) are deleted exactly for the files whose load succeeded —
deletion happens only after load confirmation, and a failed load leaves
the source file in place. -/
theorem ingest_deletes_only_after_load (loadOk : String → Bool) (files : List String) :
    (process_and_upload_to_bigquery loadOk files).removedCsv =
      (process_and_upload_to_bigquery loadOk files).loads ∧
    (process_and_upload_to_bigquery loadOk files).parquetRemoved =
      ((process_and_upload_to_bigquery loadOk files).loads).filterMap TABLE_MAPPING ∧
    ∀ f, f ∈ (process_and_upload_to_bigquery loadOk files).removedCsv →
      loadOk f = true := by
  unfold process_and_upload_to_bigquery
  cases hfound : files.filter isCsv with
  | nil => simp
  | cons a as =>
    simp only [List.isEmpty_cons, Bool.false_eq_true, if_false]
    have hspec := ingestLoop_removed_eq_loads loadOk (a :: as)
    exact ⟨hspec.1, hspec.2.1, fun f hf => hspec.2.2 f (by rw [← hspec.1]; exact hf)⟩

theorem ingest_deletes_only_after_load_witness :
    (process_and_upload_to_bigquery (fun f => decide (f ≠ "ganhos.csv"))
        ["midia.csv", "ganhos.csv", "registros.csv"]).removedCsv =
      (process_and_upload_to_bigquery (fun f => decide (f ≠ "ganhos.csv"))
        ["midia.csv", "ganhos.csv", "registros.csv"]).loads :=
  (ingest_deletes_only_after_load (fun f => decide (f ≠ "ganhos.csv"))
    ["midia.csv", "ganhos.csv", "registros.csv"]).1

/-- Claim C8: when every job before `j` succeeds and `j`'s (retried)
`download_single_report` reports failure — a `False` return or a
re-raised exception — `download_reports` attempts exactly the jobs up
to and including `j`, never reaches any later job, and reports the
failure (it forwards `j`'s outcome, which is not a success). -/
theorem download_reports_abort_on_failure (jobResult : String → Except Unit Bool)
    (pre : List String) (j : String) (post : List String)
    (hpre : ∀ r, r ∈ pre → jobResult r = Except.ok true)
    (hj : jobResult j ≠ Except.ok true) :
    (download_reports_trace jobResult (pre ++ j :: post)).1 = pre ++ [j] ∧
    (download_reports_trace jobResult (pre ++ j :: post)).2 = jobResult j ∧
    (download_reports_trace jobResult (pre ++ j :: post)).2 ≠ Except.ok true := by
  induction pre with
  | nil =>
    simp only [List.nil_append]
    cases hcase : jobResult j with
    | ok b =>
      cases b with
      | false => simp [download_reports_trace, hcase]
      | true => exact absurd hcase hj
    | error e => simp [download_reports_trace, hcase]
  | cons r rs ih =>
    have hr : jobResult r = Except.ok true := hpre r (by simp)
    have ih' := ih (fun r' hr' => hpre r' (by simp [hr']))
    simp only [List.cons_append, download_reports_trace, hr, List.append_eq]
    exact ⟨by rw [ih'.1], ih'.2.1, ih'.2.2⟩

theorem download_reports_abort_on_failure_witness :
    (download_reports_trace
        (fun r => if r = "Relatório de Registros" then Except.ok false else Except.ok true)
        (["Relatório de Mídia"] ++ "Relatório de Registros" ::
          ["Relatório de Ganhos", "Relatório de atividades"])).1 =
      ["Relatório de Mídia"] ++ ["Relatório de Registros"] ∧
    (download_reports_trace
        (fun r => if r = "Relatório de Registros" then Except.ok false else Except.ok true)
        (["Relatório de Mídia"] ++ "Relatório de Registros" ::
          ["Relatório de Ganhos", "Relatório de atividades"])).2 =
      (fun r => if r = "Relatório de Registros" then Except.ok false else Except.ok true)
        "Relatório de Registros" ∧
    (download_reports_trace
        (fun r => if r = "Relatório de Registros" then Except.ok false else Except.ok true)
        (["Relatório de Mídia"] ++ "Relatório de Registros" ::
          ["Relatório de Ganhos", "Relatório de atividades"])).2 ≠ Except.ok true :=
  download_reports_abort_on_failure
    (fun r => if r = "Relatório de Registros" then Except.ok false else Except.ok true)
    ["Relatório de Mídia"] "Relatório de Registros"
    ["Relatório de Ganhos", "Relatório de atividades"]
    (by decide) (by decide)

/-- Claim C1 counterexample: with only three of the four expected files
present (and with a fifth, unmapped file), `process_and_upload_to_bigquery`
raises no structural error — it returns success and performs loads,
contradicting the claimed count/shape invariant. -/
theorem ingest_no_structural_error_counterexample :
    ((process_and_upload_to_bigquery (fun _ => true)
        ["midia.csv", "registros.csv", "ganhos.csv"]).ok = true ∧
     (process_and_upload_to_bigquery (fun _ => true)
        ["midia.csv", "registros.csv", "ganhos.csv"]).loads =
       ["midia.csv", "registros.csv", "ganhos.csv"]) ∧
    (process_and_upload_to_bigquery (fun _ => true)
        ["midia.csv", "desconhecido.csv"]).ok = true ∧
    (process_and_upload_to_bigquery (fun _ => true)
        ["midia.csv", "desconhecido.csv"]).loads = ["midia.csv"] := by
  decide

/-- Claim C1 amended: `process_and_upload_to_bigquery` performs no
file-count check and treats unmapped files as skips, not errors — when
every load succeeds it returns success and loads exactly the `.csv`
files that have a `TABLE_MAPPING` entry, whatever their number. -/
theorem ingest_loads_mapped_files (loadOk : String → Bool) (files : List String)
    (h : ∀ f, loadOk f = true) :
    (process_and_upload_to_bigquery loadOk files).ok = true ∧
    (process_and_upload_to_bigquery loadOk files).loads =
      (files.filter isCsv).filter (fun f => (TABLE_MAPPING f).isSome) := by
  unfold process_and_upload_to_bigquery
  cases hfound : files.filter isCsv with
  | nil => simp
  | cons a as =>
    simp only [List.isEmpty_cons, Bool.false_eq_true, if_false]
    exact ingestLoop_all_ok loadOk h (a :: as)

theorem ingest_loads_mapped_files_witness :
    (process_and_upload_to_bigquery (fun _ => true)
        ["midia.csv", "registros.csv", "ganhos.csv"]).ok = true ∧
    (process_and_upload_to_bigquery (fun _ => true)
        ["midia.csv", "registros.csv", "ganhos.csv"]).loads =
      (((["midia.csv", "registros.csv", "ganhos.csv"] : List String)).filter isCsv).filter
        (fun f => (TABLE_MAPPING f).isSome) :=
  ingest_loads_mapped_files (fun _ => true)
    ["midia.csv", "registros.csv", "ganhos.csv"] (fun _ => rfl)

/-- Claim C3 counterexample: when no export action is present but
navigating back to the reports page fails, `download_single_report`
returns `False` — the job is reported as failed, not as a successful
empty result, and `download_reports` then aborts instead of advancing
to the next job. -/
theorem no_export_navigation_failure_counterexample :
    download_single_report ⟨false, false, false, true, true, false⟩ = Except.ok false ∧
    (download_reports_trace
        (fun _ => download_single_report ⟨false, false, false, true, true, false⟩)
        REPORT_TYPES).1 = ["Relatório de Mídia"] ∧
    (download_reports_trace
        (fun _ => download_single_report ⟨false, false, false, true, true, false⟩)
        REPORT_TYPES).2 = Except.ok false := by
  decide

/-- Claim C3 amended: when no export action is present after triggering
generation, `download_single_report` returns the boolean result of
navigating back to the reports page — success exactly when that
navigation succeeds; the absence of the export action itself never
raises, so the retry wrapper performs exactly one invocation and no
sleep, passing the result through. -/
theorem no_export_returns_navigation_result (env : PortalEnv)
    (h1 : env.reportStepRaises = false) (h2 : env.exportAvailable = false) :
    download_single_report env = Except.ok (navigate_back_to_reports env) ∧
    retry_on_error (fun _ => download_single_report env) 5 15 =
      ([Event.invoke 0], Except.ok (navigate_back_to_reports env)) := by
  have hres : download_single_report env = Except.ok (navigate_back_to_reports env) := by
    simp [download_single_report, h1, h2]
  refine ⟨hres, ?_⟩
  have h := retryGo_returns_at (fun _ => download_single_report env) 15
    (navigate_back_to_reports env) 0 5 0 none (by omega)
    (fun j hj => absurd hj (by omega)) (by simpa using hres)
  simpa [retry_on_error, attemptTraceFrom] using h

theorem no_export_returns_navigation_result_witness :
    download_single_report ⟨false, false, false, true, true, true⟩ = Except.ok true ∧
    retry_on_error (fun _ => download_single_report ⟨false, false, false, true, true, true⟩)
        5 15 =
      ([Event.invoke 0], Except.ok true) :=
  no_export_returns_navigation_result ⟨false, false, false, true, true, true⟩ rfl rfl

/-- Claim C9 counterexample: when `driver.quit()` raises during cleanup,
the `except` in `cleanup` swallows the error before the unlink loop and
`rmdir` run — the browser session is not closed and the temporary
directory and its contents are left in place, even though every stage
of `main` succeeded. -/
theorem cleanup_quit_failure_counterexample :
    (mainRun ⟨true, true, true, Except.ok true, Except.ok true, true⟩
        ["midia.csv"]).final.driverClosed = false ∧
    (mainRun ⟨true, true, true, Except.ok true, Except.ok true, true⟩
        ["midia.csv"]).final.tempFiles = ["midia.csv"] ∧
    (mainRun ⟨true, true, true, Except.ok true, Except.ok true, true⟩
        ["midia.csv"]).final.tempDirRemoved = false := by
  decide

/-- Claim C9 amended: on every execution of `main` — whichever stage
succeeds, returns early or raises — the `finally` block invokes
`cleanup` with the driver created iff `setup_browser` returned; and
whenever closing the browser does not itself raise, the session is
closed and the temporary directory and all its contents are removed. -/
theorem cleanup_always_invoked (env : RunEnv) (tempFiles : List String) :
    (mainRun env tempFiles).final = cleanup env.browserOk env.quitRaises tempFiles ∧
    (env.quitRaises = false →
      (mainRun env tempFiles).final.driverClosed = true ∧
      (mainRun env tempFiles).final.tempFiles = [] ∧
      (mainRun env tempFiles).final.tempDirRemoved = true) := by
  obtain ⟨b, bq, l, rep, ing, q⟩ := env
  have hfin : (mainRun ⟨b, bq, l, rep, ing, q⟩ tempFiles).final =
      cleanup b q tempFiles := by
    cases b
    · rfl
    · cases bq
      · rfl
      · cases l
        · rfl
        · rcases rep with e | br
          · rfl
          · cases br
            · rfl
            · rcases ing with e | bi
              · rfl
              · rfl
  refine ⟨hfin, fun hq => ?_⟩
  have hq' : q = false := hq
  rw [hfin, hq']
  simp [cleanup]

theorem cleanup_always_invoked_witness :
    (mainRun ⟨true, true, true, Except.ok false, Except.ok true, false⟩
        ["x.csv"]).final.driverClosed = true ∧
    (mainRun ⟨true, true, true, Except.ok false, Except.ok true, false⟩
        ["x.csv"]).final.tempFiles = [] ∧
    (mainRun ⟨true, true, true, Except.ok false, Except.ok true, false⟩
        ["x.csv"]).final.tempDirRemoved = true :=
  (cleanup_always_invoked ⟨true, true, true, Except.ok false, Except.ok true, false⟩
    ["x.csv"]).2 rfl

end Scraper
